import Mathlib

/-!
Verification of the conversation/notification core of the NellX marketplace
backend (`app/models/chat.py`, `app/services/chat_service.py`,
`app/routers/chat.py`, `app/main.py`) against its natural-language
specification.  The Python code is shallowly embedded: each database row
becomes a structure, the mutable session becomes explicit state passing on a
`ChatStore`, and the in-memory WebSocket connection dictionary becomes an
association list.  Timestamps (`datetime.utcnow()`) are abstracted as natural
numbers supplied by the caller.
-/

namespace Obmen

/-- Embeds the Pydantic schema `MessageCreate` (`app/schemas/chat.py`):
optional text content, optional image URL, and a type tag defaulting to
`"text"`. -/
structure MessageCreate where
  content : Option String := none
  image_url : Option String := none
  message_type : String := "text"
deriving Repr, DecidableEq

/-- Embeds the `messages` table row (`app/models/chat.py`, class `Message`).
Column defaults from the model: `is_read = False`, `read_at = NULL`,
`is_deleted = False`. -/
structure MessageRow where
  id : Nat
  conversation_id : Nat
  sender_id : Nat
  content : Option String
  image_url : Option String
  message_type : String
  is_read : Bool
  read_at : Option Nat
  is_deleted : Bool
  deleted_at : Option Nat
  created_at : Nat
deriving Repr, DecidableEq

/-- Embeds the `conversations` table row (`app/models/chat.py`, class
`Conversation`): canonical participant slots, optional listing context,
denormalized last-message fields, one unread counter per participant, and the
block flag. -/
structure ConversationRow where
  id : Nat
  user1_id : Nat
  user2_id : Nat
  listing_id : Option Nat
  last_message_text : Option String
  last_message_at : Option Nat
  last_sender_id : Option Nat
  unread_count_user1 : Nat
  unread_count_user2 : Nat
  is_blocked : Bool
  blocked_by : Option Nat
deriving Repr, DecidableEq

/-- The persisted relational state seen by `ChatService`: the two tables plus
the autoincrement counters for their primary keys. -/
structure ChatStore where
  conversations : List ConversationRow
  messages : List MessageRow
  nextConvId : Nat
  nextMsgId : Nat
deriving Repr, DecidableEq

/-- Embeds `Conversation.get_other_user_id` (`app/models/chat.py`). -/
def ConversationRow.get_other_user_id (c : ConversationRow) (current_user_id : Nat) : Nat :=
  if c.user1_id == current_user_id then c.user2_id else c.user1_id

/-- Embeds `Conversation.get_unread_count` (`app/models/chat.py`). -/
def ConversationRow.get_unread_count (c : ConversationRow) (user_id : Nat) : Nat :=
  if user_id == c.user1_id then c.unread_count_user1 else c.unread_count_user2

/-- Embeds `ChatService.get_conversation_by_id`: the row with the given id,
provided the given user occupies one of its two participant slots; `none`
otherwise. -/
def get_conversation_by_id (s : ChatStore) (conversation_id user_id : Nat) :
    Option ConversationRow :=
  s.conversations.find? fun c =>
    c.id == conversation_id && (c.user1_id == user_id || c.user2_id == user_id)

/-- Embeds the Python expression `data.content or "[Image]"` in
`ChatService.send_message`: `None` and the empty string are falsy. -/
def previewSource (content : Option String) : String :=
  match content with
  | none => "[Image]"
  | some s => if s = "" then "[Image]" else s

/-- Embeds `ChatService.send_message`.  The message row is added
unconditionally; the conversation row is updated (preview, timestamp, last
sender, recipient unread counter) only when the lookup scoped to the sender
finds it, i.e. when the sender is a participant.  `now` stands for
`datetime.utcnow()`. -/
def send_message (s : ChatStore) (conversation_id sender_id : Nat)
    (data : MessageCreate) (now : Nat) : ChatStore × MessageRow :=
  let msg : MessageRow :=
    { id := s.nextMsgId
      conversation_id := conversation_id
      sender_id := sender_id
      content := data.content
      image_url := data.image_url
      message_type := data.message_type
      is_read := false
      read_at := none
      is_deleted := false
      deleted_at := none
      created_at := now }
  let convs :=
    match get_conversation_by_id s conversation_id sender_id with
    | none => s.conversations
    | some _ =>
        s.conversations.map fun c =>
          if c.id == conversation_id then
            { c with
              last_message_text := some ((previewSource data.content).take 200)
              last_message_at := some now
              last_sender_id := some sender_id
              unread_count_user1 :=
                if c.user1_id == sender_id then c.unread_count_user1
                else c.unread_count_user1 + 1
              unread_count_user2 :=
                if c.user1_id == sender_id then c.unread_count_user2 + 1
                else c.unread_count_user2 }
          else c
  ({ s with
      conversations := convs
      messages := s.messages ++ [msg]
      nextMsgId := s.nextMsgId + 1 }, msg)

/-- Embeds `ChatService.mark_as_read`: when the reader is a participant, every
message of the conversation not sent by the reader and still unread gets
`is_read = True` and a read timestamp, and the reader's unread counter is reset
to zero; otherwise the store is untouched. -/
def mark_as_read (s : ChatStore) (conversation_id user_id : Nat) (now : Nat) : ChatStore :=
  match get_conversation_by_id s conversation_id user_id with
  | none => s
  | some _ =>
      let msgs := s.messages.map fun m =>
        if m.conversation_id == conversation_id && m.sender_id != user_id && !m.is_read then
          { m with is_read := true, read_at := some now }
        else m
      let convs := s.conversations.map fun c =>
        if c.id == conversation_id then
          if c.user1_id == user_id then { c with unread_count_user1 := 0 }
          else { c with unread_count_user2 := 0 }
        else c
      { s with messages := msgs, conversations := convs }

/-- Descending-order insertion used to embed the SQL
`ORDER BY created_at DESC` of `ChatService.get_messages` (ties keep insertion
order, a concrete choice of the order the database may return). -/
def insertDesc (m : MessageRow) : List MessageRow → List MessageRow
  | [] => [m]
  | x :: xs => if x.created_at ≤ m.created_at then m :: x :: xs else x :: insertDesc m xs

/-- Sort a list of messages by `created_at` descending. -/
def sortDesc : List MessageRow → List MessageRow
  | [] => []
  | x :: xs => insertDesc x (sortDesc xs)

/-- Embeds `ChatService.get_messages`: empty for a non-participant requester;
otherwise the conversation's non-soft-deleted messages, optionally restricted
to `id < before_id` (Python's `if before_id:` treats `0` as absent), newest
first, truncated to `limit`, and finally reversed to chronological order. -/
def get_messages (s : ChatStore) (conversation_id user_id : Nat)
    (limit : Nat) (before_id : Option Nat) : List MessageRow :=
  match get_conversation_by_id s conversation_id user_id with
  | none => []
  | some _ =>
      let q := s.messages.filter fun m =>
        m.conversation_id == conversation_id && !m.is_deleted
      let q :=
        match before_id with
        | none => q
        | some b => if b == 0 then q else q.filter fun m => m.id < b
      ((sortDesc q).take limit).reverse

/-- Embeds the canonical-ordering swap at the top of
`ChatService.get_or_create_conversation`: `if user1_id > user2_id: swap`. -/
def canonPair (user1_id user2_id : Nat) : Nat × Nat :=
  if user1_id > user2_id then (user2_id, user1_id) else (user1_id, user2_id)

/-- Embeds the lookup step of `get_or_create_conversation`: the row whose
participant slots equal the canonical pair. -/
def gocLookup (s : ChatStore) (a b : Nat) : Option ConversationRow :=
  s.conversations.find? fun c => c.user1_id == a && c.user2_id == b

/-- Embeds the creation step of `get_or_create_conversation`: a fresh row with
column defaults `unread_count_user1 = unread_count_user2 = 0` and
`is_blocked = False` (`app/models/chat.py`). -/
def gocCreate (s : ChatStore) (a b : Nat) (listing_id : Option Nat) :
    ChatStore × ConversationRow :=
  let c : ConversationRow :=
    { id := s.nextConvId
      user1_id := a
      user2_id := b
      listing_id := listing_id
      last_message_text := none
      last_message_at := none
      last_sender_id := none
      unread_count_user1 := 0
      unread_count_user2 := 0
      is_blocked := false
      blocked_by := none }
  ({ s with conversations := s.conversations ++ [c], nextConvId := s.nextConvId + 1 }, c)

/-- Embeds `ChatService.get_or_create_conversation`: canonicalize, look up,
and on a miss insert unconditionally (no conflict handling appears in the
source). -/
def get_or_create_conversation (s : ChatStore) (user1_id user2_id : Nat)
    (listing_id : Option Nat) : ChatStore × ConversationRow :=
  match gocLookup s (canonPair user1_id user2_id).1 (canonPair user1_id user2_id).2 with
  | some c => (s, c)
  | none =>
      gocCreate s (canonPair user1_id user2_id).1 (canonPair user1_id user2_id).2 listing_id

/-- Embeds `ChatService.get_total_unread`: the number of conversations in
which the given user's own unread counter is positive. -/
def get_total_unread (s : ChatStore) (user_id : Nat) : Nat :=
  (s.conversations.filter fun c =>
    (c.user1_id == user_id && decide (0 < c.unread_count_user1)) ||
    (c.user2_id == user_id && decide (0 < c.unread_count_user2))).length

/-- Embeds `ChatService.block_conversation`: sets or clears the block flag and
the blocker identity when the caller is a participant; reports whether the
conversation was found. -/
def block_conversation (s : ChatStore) (conversation_id user_id : Nat)
    (block : Bool) : ChatStore × Bool :=
  match get_conversation_by_id s conversation_id user_id with
  | none => (s, false)
  | some _ =>
      let convs := s.conversations.map fun c =>
        if c.id == conversation_id then
          { c with is_blocked := block, blocked_by := if block then some user_id else none }
        else c
      ({ s with conversations := convs }, true)

/-- HTTP-level failures raised by the chat router (`app/routers/chat.py`):
404 "Диалог не найден", 403 "Диалог заблокирован", 400 for messaging oneself. -/
inductive ApiError where
  | notFound
  | blocked
  | badRequest
deriving Repr, DecidableEq

/-- Embeds the `POST /conversations/{id}/messages` handler
(`app/routers/chat.py`, `send_message`): 404 unless the caller is a
participant of an existing conversation, 403 if the conversation is blocked,
otherwise delegate to `ChatService.send_message`. -/
def api_send_message (s : ChatStore) (conversation_id current_user : Nat)
    (data : MessageCreate) (now : Nat) : Except ApiError (ChatStore × MessageRow) :=
  match get_conversation_by_id s conversation_id current_user with
  | none => .error .notFound
  | some conv =>
      if conv.is_blocked then .error .blocked
      else .ok (send_message s conversation_id current_user data now)

/-- Embeds the `POST /conversations` handler (`app/routers/chat.py`,
`start_conversation`): rejects messaging oneself, gets or creates the
conversation, and sends the initial message through `ChatService.send_message`
when one is provided (Python's `if data.initial_message:` treats the empty
string as absent).  The handler performs no block-flag check on this path. -/
def api_start_conversation (s : ChatStore) (current_user recipient_id : Nat)
    (listing_id : Option Nat) (initial_message : Option String) (now : Nat) :
    Except ApiError ChatStore :=
  if recipient_id == current_user then .error .badRequest
  else
    let r := get_or_create_conversation s current_user recipient_id listing_id
    match initial_message with
    | none => .ok r.1
    | some t =>
        if t == "" then .ok r.1
        else .ok (send_message r.1 r.2.id current_user
          { content := some t, image_url := none, message_type := "text" } now).1

/-- Embeds the `POST /conversations/{id}/read` handler: delegates to
`ChatService.mark_as_read` and always reports ok. -/
def api_mark_as_read (s : ChatStore) (conversation_id current_user : Nat) (now : Nat) :
    ChatStore :=
  mark_as_read s conversation_id current_user now

/-! ## The WebSocket connection registry (`app/main.py`)

`active_connections: Dict[int, Set[WebSocket]]` is embedded as an association
list from user id to the list of live connection handles (handles are `Nat`).
Whether a `send_text` on a handle succeeds is given by a predicate
`ok : Nat → Bool`. -/

/-- The in-memory connection registry: user id paired with that user's live
connection handles. -/
abbrev Registry := List (Nat × List Nat)

/-- Dictionary lookup `active_connections.get(user_id)`. -/
def regFind (r : Registry) (user_id : Nat) : Option (List Nat) :=
  (r.find? fun p => p.1 == user_id).map (·.2)

/-- Dictionary update `active_connections[user_id] = conns` for a present key. -/
def regSet (r : Registry) (user_id : Nat) (conns : List Nat) : Registry :=
  r.map fun p => if p.1 == user_id then (user_id, conns) else p

/-- Embeds the connect phase of `websocket_endpoint` (`app/main.py`): create
the user's set if absent, then add the accepted connection to it. -/
def wsConnect (r : Registry) (user_id conn : Nat) : Registry :=
  match regFind r user_id with
  | none => r ++ [(user_id, [conn])]
  | some conns => regSet r user_id (if conns.contains conn then conns else conns ++ [conn])

/-- Embeds the `WebSocketDisconnect` handler of `websocket_endpoint`: discard
the connection and delete the user's entry when the set becomes empty. -/
def wsDisconnect (r : Registry) (user_id conn : Nat) : Registry :=
  match regFind r user_id with
  | none => r
  | some conns =>
      let remaining := conns.filter fun x => x != conn
      if remaining.isEmpty then r.filter fun p => p.1 != user_id
      else regSet r user_id remaining

/-- Embeds `send_to_user` (`app/main.py`).  For a registered user every live
connection is attempted; the ones whose `send_text` raises are collected as
dead and removed from the set after the loop.  The function body has no
`return` statement, so the Python call evaluates to `None`: the third
component, the value returned to the caller, is always `none`.  The second
component is the delivery trace: the connections whose attempt succeeded. -/
def send_to_user (r : Registry) (user_id : Nat) (ok : Nat → Bool) :
    Registry × List Nat × Option Bool :=
  match regFind r user_id with
  | none => (r, [], none)
  | some conns =>
      let delivered := conns.filter ok
      let dead := conns.filter fun c => !ok c
      (regSet r user_id (conns.filter fun c => !dead.contains c), delivered, none)

/-- One operation on the registry: a WebSocket connect, a disconnect, or a
`send_to_user` fan-out whose per-connection outcome is `ok`. -/
inductive RegOp where
  | connect (user_id conn : Nat)
  | disconnect (user_id conn : Nat)
  | send (user_id : Nat) (ok : Nat → Bool)

/-- Apply one registry operation. -/
def regStep (r : Registry) : RegOp → Registry
  | .connect u c => wsConnect r u c
  | .disconnect u c => wsDisconnect r u c
  | .send u ok => (send_to_user r u ok).1

/-- The registry state reached from the initial empty dictionary by a sequence
of operations. -/
def regRun (ops : List RegOp) : Registry :=
  ops.foldl regStep []

/-- The online check the code uses (`if user_id in active_connections`). -/
def isOnline (r : Registry) (user_id : Nat) : Bool :=
  (regFind r user_id).isSome

/-- Embeds the whole observable effect of the `POST
/conversations/{id}/messages` request on the store, the connection registry
and the wire.  The handler body in `app/routers/chat.py` contains no call to
`send_to_user`, no WebSocket write and no offline-notification call, so the
registry is returned unchanged and the delivery trace (pairs of recipient and
connection reached) is empty. -/
def api_send_message_full (s : ChatStore) (r : Registry)
    (conversation_id current_user : Nat) (data : MessageCreate) (now : Nat) :
    Except ApiError (ChatStore × Registry × List (Nat × Nat) × MessageRow) :=
  match api_send_message s conversation_id current_user data now with
  | .error e => .error e
  | .ok (s2, m) => .ok (s2, r, [], m)

/-! ## Concurrency model for first contact (`get_or_create_conversation`)

The service performs a lookup and, on a miss, an unconditional insert.  The
database enforces the unique index `idx_conversation_users` on
`(user1_id, user2_id)` (`app/models/chat.py`), so a flush that inserts a
second row for the same pair raises an integrity error that the service does
not catch. -/

/-- Database-level failure raised at flush time by the unique index
`idx_conversation_users`. -/
inductive DbError where
  | uniqueViolation
deriving Repr, DecidableEq

/-- The flush of the creation step checked against the unique index: the
insert fails when a row with the same canonical pair already exists. -/
def gocInsertUnique (s : ChatStore) (a b : Nat) (listing_id : Option Nat) :
    Except DbError (ChatStore × ConversationRow) :=
  if s.conversations.any fun c => c.user1_id == a && c.user2_id == b then
    .error .uniqueViolation
  else .ok (gocCreate s a b listing_id)

/-- The remainder of `get_or_create_conversation` after its lookup, resumed
against the current store with a lookup result that may have been computed
earlier (against a stale store): return the found row, or insert — the source
has no conflict handling or retry, so a uniqueness violation propagates to the
caller. -/
def gocResume (s : ChatStore) (a b : Nat) (listing_id : Option Nat)
    (found : Option ConversationRow) : Except DbError (ChatStore × ConversationRow) :=
  match found with
  | some c => .ok (s, c)
  | none => gocInsertUnique s a b listing_id

/-- Two concurrent `get_or_create_conversation` calls whose lookups both run
before either insert (first contact from both directions at the same instant):
each call's lookup reads the initial store `s`; the first call's remainder
then runs, and the second call's remainder runs against the store the first
call produced (on error the store is rolled back, i.e. unchanged). -/
def concurrentFirstContact (s : ChatStore) (x1 y1 x2 y2 : Nat) (listing_id : Option Nat) :
    Except DbError (ChatStore × ConversationRow) ×
      Except DbError (ChatStore × ConversationRow) :=
  let p1 := canonPair x1 y1
  let p2 := canonPair x2 y2
  let f1 := gocLookup s p1.1 p1.2
  let f2 := gocLookup s p2.1 p2.2
  let r1 := gocResume s p1.1 p1.2 listing_id f1
  let s1 := match r1 with | .ok z => z.1 | .error _ => s
  (r1, gocResume s1 p2.1 p2.2 listing_id f2)

/-! ## Concrete fixtures used to witness the theorems -/

/-- An empty store. -/
def emptyStore : ChatStore :=
  { conversations := [], messages := [], nextConvId := 1, nextMsgId := 1 }

/-- A conversation between users 1 and 2, in its freshly created state. -/
def convFixture : ConversationRow :=
  { id := 1
    user1_id := 1
    user2_id := 2
    listing_id := none
    last_message_text := none
    last_message_at := none
    last_sender_id := none
    unread_count_user1 := 0
    unread_count_user2 := 0
    is_blocked := false
    blocked_by := none }

/-- A store holding just the conversation between users 1 and 2. -/
def storeFixture : ChatStore :=
  { conversations := [convFixture], messages := [], nextConvId := 2, nextMsgId := 1 }

/-- The same store after user 1 blocked the conversation. -/
def blockedStore : ChatStore :=
  { storeFixture with
      conversations := [{ convFixture with is_blocked := true, blocked_by := some 1 }] }

/-- An unread text message from user 2 in conversation 1. -/
def msgFromTwo : MessageRow :=
  { id := 1
    conversation_id := 1
    sender_id := 2
    content := some "privet"
    image_url := none
    message_type := "text"
    is_read := false
    read_at := none
    is_deleted := false
    deleted_at := none
    created_at := 1 }

/-- A soft-deleted message from user 1 in conversation 1. -/
def msgDeleted : MessageRow :=
  { id := 2
    conversation_id := 1
    sender_id := 1
    content := some "oops"
    image_url := none
    message_type := "text"
    is_read := false
    read_at := none
    is_deleted := true
    deleted_at := some 2
    created_at := 2 }

/-- A store with one unread message from user 2 and one soft-deleted message,
and the matching unread counter for user 1. -/
def storeWithMessages : ChatStore :=
  { conversations := [{ convFixture with unread_count_user1 := 1 }]
    messages := [msgFromTwo, msgDeleted]
    nextConvId := 2
    nextMsgId := 3 }

/-- A registry in which user 7 holds three live connections. -/
def regFixture : Registry := [(7, [1, 2, 3])]

/-- A registry in which user 2 is online with one live connection. -/
def c7Registry : Registry := [(2, [20])]

/-- Selects the registry operations that are not `send_to_user` fan-outs. -/
def sendFreeOp : RegOp → Bool
  | .connect _ _ => true
  | .disconnect _ _ => true
  | .send _ _ => false

/-- The registry invariant claimed by the spec: no user is mapped to an empty
connection set. -/
def goodReg (r : Registry) : Prop := ∀ p ∈ r, p.2 ≠ []

deriving instance DecidableEq for Except

/-! ## Helper lemmas -/

theorem find?_map_eq {α : Type} (l : List α) (p : α → Bool) (f : α → α)
    (hpf : ∀ a, p (f a) = p a) :
    (l.map f).find? p = (l.find? p).map f := by
  have h : p ∘ f = p := funext hpf
  rw [List.find?_map, h]

theorem mem_insertDesc {a m : MessageRow} {l : List MessageRow} :
    a ∈ insertDesc m l ↔ a = m ∨ a ∈ l := by
  induction l with
  | nil => simp [insertDesc]
  | cons x xs ih =>
      by_cases h : x.created_at ≤ m.created_at
      · simp [insertDesc, h]
      · simp [insertDesc, h, ih]
        tauto

theorem mem_sortDesc {a : MessageRow} {l : List MessageRow} :
    a ∈ sortDesc l ↔ a ∈ l := by
  induction l with
  | nil => simp [sortDesc]
  | cons x xs ih => simp [sortDesc, mem_insertDesc, ih]

theorem length_insertDesc (m : MessageRow) (l : List MessageRow) :
    (insertDesc m l).length = l.length + 1 := by
  induction l with
  | nil => rfl
  | cons x xs ih =>
      by_cases h : x.created_at ≤ m.created_at <;>
        simp [insertDesc, h, ih]

theorem length_sortDesc (l : List MessageRow) :
    (sortDesc l).length = l.length := by
  induction l with
  | nil => rfl
  | cons x xs ih => simp [sortDesc, length_insertDesc, ih]

/-! ## Claim C10 -/

/-- Claim C10: every message returned by `get_messages` has its soft-delete
flag unset; a soft-deleted message is never returned even though its row
remains in the store. -/
theorem get_messages_no_deleted (s : ChatStore) (conversation_id user_id limit : Nat)
    (before_id : Option Nat) (m : MessageRow)
    (hm : m ∈ get_messages s conversation_id user_id limit before_id) :
    m.is_deleted = false := by
  unfold get_messages at hm
  cases hfind : get_conversation_by_id s conversation_id user_id with
  | none => rw [hfind] at hm; simp at hm
  | some conv =>
      rw [hfind] at hm
      simp only [List.mem_reverse] at hm
      replace hm := List.mem_of_mem_take hm
      rw [mem_sortDesc] at hm
      have hm3 : m ∈ s.messages.filter
          (fun x => x.conversation_id == conversation_id && !x.is_deleted) := by
        cases before_id with
        | none => exact hm
        | some b =>
            dsimp only at hm
            by_cases hb : (b == 0) = true
            · rw [if_pos hb] at hm
              exact hm
            · rw [if_neg hb] at hm
              exact List.mem_of_mem_filter hm
      have hp := List.of_mem_filter hm3
      simp only [Bool.and_eq_true, Bool.not_eq_eq_eq_not, Bool.not_true] at hp
      exact hp.2

/-- Witness for C10: in a store holding one live and one soft-deleted message,
the live message is returned and the theorem yields its unset delete flag. -/
theorem get_messages_no_deleted_witness :
    msgFromTwo ∈ get_messages storeWithMessages 1 1 50 none ∧
    msgFromTwo.is_deleted = false :=
  ⟨by decide, get_messages_no_deleted storeWithMessages 1 1 50 none msgFromTwo (by decide)⟩

/-! ## Claim C3 -/

/-- Claim C3 counterexample: user 3 is not a participant of conversation 1,
yet the service-level `send_message` returns normally and inserts the message
row — the store is changed and no NotParticipant failure occurs. -/
theorem send_message_non_participant_cex :
    get_conversation_by_id storeFixture 1 3 = none ∧
    (send_message storeFixture 1 3 {} 4).1.messages.length
      = storeFixture.messages.length + 1 := by
  decide

/-- Claim C3 (amended): a caller who is not a participant triggers no
NotParticipant error: `get_messages` returns the empty list, `mark_as_read`
leaves the store untouched, the HTTP send endpoint rejects the caller with the
generic not-found error, and the service-level `send_message` still inserts
the message row while leaving every conversation row unchanged. -/
theorem non_participant_behavior (s : ChatStore) (conversation_id user_id limit : Nat)
    (before_id : Option Nat) (data : MessageCreate) (now : Nat)
    (h : get_conversation_by_id s conversation_id user_id = none) :
    get_messages s conversation_id user_id limit before_id = [] ∧
    mark_as_read s conversation_id user_id now = s ∧
    api_send_message s conversation_id user_id data now = .error .notFound ∧
    (send_message s conversation_id user_id data now).1.conversations = s.conversations ∧
    (send_message s conversation_id user_id data now).1.messages
      = s.messages ++ [(send_message s conversation_id user_id data now).2] := by
  refine ⟨?_, ?_, ?_, ?_, ?_⟩ <;>
    simp [get_messages, mark_as_read, api_send_message, send_message, h]

/-- Witness for the amended C3 at a concrete non-participant caller. -/
theorem non_participant_behavior_witness :
    get_conversation_by_id storeFixture 1 3 = none ∧
    get_messages storeFixture 1 3 50 none = [] ∧
    mark_as_read storeFixture 1 3 9 = storeFixture ∧
    api_send_message storeFixture 1 3 {} 9 = .error .notFound :=
  ⟨by decide,
   (non_participant_behavior storeFixture 1 3 50 none {} 9 (by decide)).1,
   (non_participant_behavior storeFixture 1 3 50 none {} 9 (by decide)).2.1,
   (non_participant_behavior storeFixture 1 3 50 none {} 9 (by decide)).2.2.1⟩

/-! ## Claim C2 -/

/-- Claim C2 counterexample: conversation 1 between users 1 and 2 is blocked,
yet `start_conversation` with an initial message succeeds for participant 1
and appends a message row — the initial-message path performs no block
check. -/
theorem start_conversation_blocked_cex :
    blockedStore.conversations.map ConversationRow.is_blocked = [true] ∧
    (api_start_conversation blockedStore 1 2 none (some "hi") 7).map
      (fun s2 => s2.messages.length) = .ok (blockedStore.messages.length + 1) := by
  decide

/-- Claim C2 (amended): the block flag is enforced only on the message-send
endpoint: whenever the endpoint's own lookup finds the conversation (i.e. for
either participant) and the block flag is set, the request fails with the
blocked error and no message is inserted; the service layer and the
start-conversation initial-message path perform no block check. -/
theorem api_send_message_blocked (s : ChatStore) (conversation_id user_id : Nat)
    (conv : ConversationRow) (data : MessageCreate) (now : Nat)
    (hfind : get_conversation_by_id s conversation_id user_id = some conv)
    (hb : conv.is_blocked = true) :
    api_send_message s conversation_id user_id data now = .error .blocked := by
  simp [api_send_message, hfind, hb]

/-- Witness for the amended C2: both participants of the blocked conversation
are rejected by the send endpoint. -/
theorem api_send_message_blocked_witness :
    api_send_message blockedStore 1 1 {} 7 = .error .blocked ∧
    api_send_message blockedStore 1 2 {} 7 = .error .blocked :=
  ⟨api_send_message_blocked blockedStore 1 1
      { convFixture with is_blocked := true, blocked_by := some 1 } {} 7
      (by decide) (by decide),
   api_send_message_blocked blockedStore 1 2
      { convFixture with is_blocked := true, blocked_by := some 1 } {} 7
      (by decide) (by decide)⟩

/-! ## Registry lemmas -/

theorem regFind_regSet (r : Registry) (u : Nat) (x : List Nat) :
    regFind (regSet r u x) u = (regFind r u).map fun _ => x := by
  unfold regFind regSet
  induction r with
  | nil => rfl
  | cons p ps ih =>
      simp only [List.map_cons]
      by_cases h : (p.1 == u) = true
      · rw [if_pos h]
        rw [@List.find?_cons_of_pos _ (fun q => q.1 == u) (u, x) _ (by simp),
            @List.find?_cons_of_pos _ (fun q => q.1 == u) p _ h]
        rfl
      · rw [if_neg h]
        rw [@List.find?_cons_of_neg _ (fun q => q.1 == u) p _ h,
            @List.find?_cons_of_neg _ (fun q => q.1 == u) p _ h]
        exact ih

theorem filter_not_dead (conns : List Nat) (ok : Nat → Bool) :
    (conns.filter fun c => !(conns.filter fun d => !ok d).contains c)
      = conns.filter ok := by
  apply List.filter_congr
  intro a ha
  by_cases h : ok a = true
  · simp [h, List.mem_filter]
  · simp [h, List.mem_filter, ha]

theorem goodReg_regSet (r : Registry) (u : Nat) (x : List Nat) (hr : goodReg r)
    (hx : x ≠ []) : goodReg (regSet r u x) := by
  intro p hp
  rcases List.mem_map.mp hp with ⟨q, hq, rfl⟩
  by_cases h : (q.1 == u) = true
  · simpa [h] using hx
  · simpa [h] using hr q hq

theorem goodReg_find (r : Registry) (u : Nat) (conns : List Nat) (hr : goodReg r)
    (h : regFind r u = some conns) : conns ≠ [] := by
  unfold regFind at h
  cases hq : r.find? fun p => p.1 == u with
  | none => rw [hq] at h; simp at h
  | some q =>
      rw [hq] at h
      simp only [Option.map_some'] at h
      injection h with h2
      subst h2
      exact hr q (List.mem_of_find?_eq_some hq)

theorem goodReg_wsConnect (r : Registry) (u c : Nat) (hr : goodReg r) :
    goodReg (wsConnect r u c) := by
  unfold wsConnect
  cases hf : regFind r u with
  | none =>
      intro p hp
      rcases List.mem_append.mp hp with h | h
      · exact hr p h
      · rw [List.mem_singleton] at h
        subst h
        simp
  | some conns =>
      have hconns := goodReg_find r u conns hr hf
      apply goodReg_regSet r u _ hr
      by_cases hc : c ∈ conns
      · simpa [hc] using hconns
      · simp [hc]

theorem goodReg_wsDisconnect (r : Registry) (u c : Nat) (hr : goodReg r) :
    goodReg (wsDisconnect r u c) := by
  unfold wsDisconnect
  cases hf : regFind r u with
  | none => exact hr
  | some conns =>
      dsimp only
      by_cases he : (conns.filter fun x => x != c).isEmpty = true
      · rw [if_pos he]
        intro p hp
        exact hr p (List.mem_of_mem_filter hp)
      · rw [if_neg he]
        apply goodReg_regSet _ _ _ hr
        intro hnil
        rw [hnil] at he
        simp at he

theorem goodReg_regRun_aux (ops : List RegOp) (r : Registry) (hr : goodReg r)
    (hops : ops.all sendFreeOp = true) : goodReg (ops.foldl regStep r) := by
  induction ops generalizing r with
  | nil => exact hr
  | cons op ops ih =>
      rw [List.all_cons, Bool.and_eq_true] at hops
      rw [List.foldl_cons]
      have hstep : goodReg (regStep r op) := by
        cases op with
        | connect u c => exact goodReg_wsConnect r u c hr
        | disconnect u c => exact goodReg_wsDisconnect r u c hr
        | send u ok => exact absurd hops.1 (by simp [sendFreeOp])
      exact ih _ hstep hops.2

/-! ## Claim C6 -/

/-- Claim C6 counterexample: with connections {1, 2, 3} registered for user 7
and delivery failing on connection 2, connections 1 and 3 remain registered
and both receive the event — but `send_to_user` has no return statement, so
the call evaluates to None rather than reporting that at least one delivery
succeeded. -/
theorem send_to_user_cex :
    (send_to_user regFixture 7 fun c => c != 2).1 = [(7, [1, 3])] ∧
    (send_to_user regFixture 7 fun c => c != 2).2.1 = [1, 3] ∧
    (send_to_user regFixture 7 fun c => c != 2).2.2 ≠ some true := by
  decide

/-- Claim C6 (amended): for a registered user, `send_to_user` attempts
delivery on every connection; the connections whose attempt succeeds form the
delivery trace and remain registered, while every failed connection is evicted
without aborting delivery to the rest — but the function returns None, not a
boolean reporting whether at least one delivery succeeded. -/
theorem send_to_user_spec (r : Registry) (user_id : Nat) (ok : Nat → Bool)
    (conns : List Nat) (h : regFind r user_id = some conns) :
    (send_to_user r user_id ok).2.2 = none ∧
    (send_to_user r user_id ok).2.1 = conns.filter ok ∧
    regFind (send_to_user r user_id ok).1 user_id = some (conns.filter ok) := by
  refine ⟨?_, ?_, ?_⟩
  · simp [send_to_user, h]
  · simp [send_to_user, h]
  · simp only [send_to_user, h]
    rw [filter_not_dead, regFind_regSet, h]
    rfl

/-- Witness for the amended C6 at the three-connection fixture. -/
theorem send_to_user_spec_witness :
    (send_to_user regFixture 7 fun c => c != 2).2.2 = none ∧
    regFind (send_to_user regFixture 7 fun c => c != 2).1 7 = some [1, 3] :=
  ⟨(send_to_user_spec regFixture 7 (fun c => c != 2) [1, 2, 3] rfl).1,
   (send_to_user_spec regFixture 7 (fun c => c != 2) [1, 2, 3] rfl).2.2⟩

/-! ## Claim C8 -/

/-- Claim C8 counterexample: after registering one connection for user 1 and a
`send_to_user` in which that delivery fails, the eviction removes the
connection but not the user's dictionary entry: the registry maps user 1 to
the empty set, and the code's own online check (`user_id in
active_connections`) still reports user 1 online. -/
theorem registry_empty_set_cex :
    regFind (regRun [.connect 1 10, .send 1 fun _ => false]) 1 = some [] ∧
    isOnline (regRun [.connect 1 10, .send 1 fun _ => false]) 1 = true := by
  decide

/-- Claim C8 (amended): in every registry state reachable by connect and
disconnect operations alone, no user is mapped to an empty connection set (a
user's entry is removed with their last connection), so a user is reported
online exactly when they have a live connection; the dead-connection eviction
inside `send_to_user`, however, can leave a user mapped to an empty set. -/
theorem registry_no_empty_without_send (ops : List RegOp) (u : Nat) (conns : List Nat)
    (hops : ops.all sendFreeOp = true)
    (hfind : regFind (regRun ops) u = some conns) : conns ≠ [] := by
  have hg : goodReg (regRun ops) := by
    apply goodReg_regRun_aux ops [] _ hops
    intro p hp
    simp at hp
  exact goodReg_find _ u conns hg hfind

/-- Witness for the amended C8: one connect, then the mapped set is the
non-empty singleton. -/
theorem registry_no_empty_without_send_witness :
    regFind (regRun [.connect 5 1]) 5 = some [1] ∧ ([1] : List Nat) ≠ [] :=
  ⟨rfl, registry_no_empty_without_send [.connect 5 1] 5 [1] rfl rfl⟩

/-! ## Claim C4 -/

theorem canonPair_eq (a b : Nat) : canonPair a b = (min a b, max a b) := by
  unfold canonPair
  split <;> (rw [Prod.mk.injEq]; constructor <;> omega)

/-- Claim C4: `get_or_create_conversation` gives the same result for both
argument orders of a distinct pair; when no row exists for the canonical pair,
the created row has the smaller id in the first slot (`user1_id < user2_id`),
zero unread counters and no block flag, and is the single appended row; and
the smaller-first invariant over all stored rows is preserved. -/
theorem get_or_create_spec (s : ChatStore) (a b : Nat) (listing_id : Option Nat)
    (hab : a ≠ b) :
    get_or_create_conversation s a b listing_id
      = get_or_create_conversation s b a listing_id ∧
    (gocLookup s (canonPair a b).1 (canonPair a b).2 = none →
      (get_or_create_conversation s a b listing_id).2.user1_id = min a b ∧
      (get_or_create_conversation s a b listing_id).2.user2_id = max a b ∧
      (get_or_create_conversation s a b listing_id).2.user1_id
        < (get_or_create_conversation s a b listing_id).2.user2_id ∧
      (get_or_create_conversation s a b listing_id).2.unread_count_user1 = 0 ∧
      (get_or_create_conversation s a b listing_id).2.unread_count_user2 = 0 ∧
      (get_or_create_conversation s a b listing_id).2.is_blocked = false ∧
      (get_or_create_conversation s a b listing_id).1.conversations
        = s.conversations ++ [(get_or_create_conversation s a b listing_id).2]) ∧
    ((∀ c ∈ s.conversations, c.user1_id < c.user2_id) →
      ∀ c ∈ (get_or_create_conversation s a b listing_id).1.conversations,
        c.user1_id < c.user2_id) := by
  have hcomm : canonPair a b = canonPair b a := by
    rw [canonPair_eq, canonPair_eq, Nat.min_comm, Nat.max_comm]
  refine ⟨?_, ?_, ?_⟩
  · unfold get_or_create_conversation
    rw [hcomm]
  · intro hnone
    unfold get_or_create_conversation
    rw [hnone, canonPair_eq]
    refine ⟨rfl, rfl, ?_, rfl, rfl, rfl, rfl⟩
    show min a b < max a b
    omega
  · intro hinv c hc
    unfold get_or_create_conversation at hc
    cases hl : gocLookup s (canonPair a b).1 (canonPair a b).2 with
    | some c0 =>
        rw [hl] at hc
        exact hinv c hc
    | none =>
        rw [hl] at hc
        unfold gocCreate at hc
        rcases List.mem_append.mp hc with h | h
        · exact hinv c h
        · rw [List.mem_singleton] at h
          subst h
          rw [canonPair_eq]
          dsimp only
          omega

/-- Witness for C4: the pair given as (2, 1) and as (1, 2) over the empty
store. -/
theorem get_or_create_spec_witness :
    get_or_create_conversation emptyStore 2 1 none
      = get_or_create_conversation emptyStore 1 2 none ∧
    (get_or_create_conversation emptyStore 2 1 none).2.user1_id = 1 ∧
    (get_or_create_conversation emptyStore 2 1 none).2.user2_id = 2 ∧
    (get_or_create_conversation emptyStore 2 1 none).2.unread_count_user1 = 0 ∧
    (get_or_create_conversation emptyStore 2 1 none).2.is_blocked = false :=
  ⟨(get_or_create_spec emptyStore 2 1 none (by decide)).1,
   ((get_or_create_spec emptyStore 2 1 none (by decide)).2.1 (by decide)).1,
   ((get_or_create_spec emptyStore 2 1 none (by decide)).2.1 (by decide)).2.1,
   ((get_or_create_spec emptyStore 2 1 none (by decide)).2.1 (by decide)).2.2.2.1,
   ((get_or_create_spec emptyStore 2 1 none (by decide)).2.1 (by decide)).2.2.2.2.2.1⟩

/-! ## Claim C9 -/

/-- A `get_or_create_conversation` call whose lookup is not stale (it reads
the same store the insert writes into) never hits the unique index and equals
the sequential service call — the interleaving model decomposes the same
code. -/
theorem gocResume_fresh (s : ChatStore) (x y : Nat) (listing_id : Option Nat) :
    gocResume s (canonPair x y).1 (canonPair x y).2 listing_id
        (gocLookup s (canonPair x y).1 (canonPair x y).2)
      = .ok (get_or_create_conversation s x y listing_id) := by
  unfold gocResume get_or_create_conversation
  cases hl : gocLookup s (canonPair x y).1 (canonPair x y).2 with
  | some c => rfl
  | none =>
      unfold gocInsertUnique
      have hany : (s.conversations.any fun c =>
          c.user1_id == (canonPair x y).1 && c.user2_id == (canonPair x y).2) = false := by
        unfold gocLookup at hl
        rw [List.find?_eq_none] at hl
        rw [List.any_eq_false]
        exact hl
      rw [if_neg (by rw [hany]; exact Bool.false_ne_true)]

/-- Claim C9 counterexample: two concurrent first-contact calls for the
unordered pair {1, 2}, one from each direction, whose lookups both run before
either insert: the first call creates the single row (1, 2), while the second
call's unconditional insert hits the unique index and fails with a uniqueness
violation instead of returning the existing conversation — the implementation
is a lookup followed by an unconditional insert, with no upsert or
retry-on-conflict. -/
theorem concurrent_first_contact_cex :
    ((concurrentFirstContact emptyStore 1 2 2 1 none).1.map
      fun z => (z.1.conversations.length, z.2.user1_id, z.2.user2_id)) = .ok (1, 1, 2) ∧
    (concurrentFirstContact emptyStore 1 2 2 1 none).2 = .error .uniqueViolation := by
  decide

/-- Claim C9 (amended): the unique index does keep the rows for a pair to at
most one — after the race the store holds exactly one row for the canonical
pair — but the losing concurrent call does not return that conversation: its
unconditional insert fails with the uniqueness violation, which the service
does not catch or retry. -/
theorem concurrentFirstContact_spec (s : ChatStore) (x1 y1 x2 y2 : Nat)
    (listing_id : Option Nat)
    (hsame : canonPair x1 y1 = canonPair x2 y2)
    (habsent : gocLookup s (canonPair x1 y1).1 (canonPair x1 y1).2 = none) :
    (concurrentFirstContact s x1 y1 x2 y2 listing_id).1
      = .ok (gocCreate s (canonPair x1 y1).1 (canonPair x1 y1).2 listing_id) ∧
    (concurrentFirstContact s x1 y1 x2 y2 listing_id).2 = .error .uniqueViolation ∧
    ((gocCreate s (canonPair x1 y1).1 (canonPair x1 y1).2 listing_id).1.conversations.filter
        fun c => c.user1_id == (canonPair x1 y1).1 && c.user2_id == (canonPair x1 y1).2).length
      = 1 := by
  have hall : ∀ c ∈ s.conversations,
      ¬ (c.user1_id == (canonPair x1 y1).1 && c.user2_id == (canonPair x1 y1).2) = true := by
    unfold gocLookup at habsent
    rw [List.find?_eq_none] at habsent
    exact habsent
  have hany : (s.conversations.any fun c =>
      c.user1_id == (canonPair x1 y1).1 && c.user2_id == (canonPair x1 y1).2) = false :=
    List.any_eq_false.mpr hall
  have hfilter : (s.conversations.filter fun c =>
      c.user1_id == (canonPair x1 y1).1 && c.user2_id == (canonPair x1 y1).2) = [] :=
    List.filter_eq_nil_iff.mpr hall
  refine ⟨?_, ?_, ?_⟩ <;>
    simp [concurrentFirstContact, ← hsame, habsent, gocResume, gocInsertUnique, hany,
      gocCreate, List.filter_append, hfilter]

/-- Witness for the amended C9 at the concrete racing pair {1, 2}. -/
theorem concurrentFirstContact_spec_witness :
    (concurrentFirstContact emptyStore 1 2 2 1 none).2 = .error .uniqueViolation ∧
    ((gocCreate emptyStore (canonPair 1 2).1 (canonPair 1 2).2 none).1.conversations.filter
        fun c => c.user1_id == (canonPair 1 2).1 && c.user2_id == (canonPair 1 2).2).length
      = 1 :=
  ⟨(concurrentFirstContact_spec emptyStore 1 2 2 1 none (by decide) (by decide)).2.1,
   (concurrentFirstContact_spec emptyStore 1 2 2 1 none (by decide) (by decide)).2.2⟩

/-! ## Claim C1 -/

/-- Claim C1: when the sender is a participant (the service's sender-scoped
lookup finds the conversation row), the single `send_message` state transition
appends exactly one message row carrying this sender and conversation,
increments the other participant's unread counter by exactly one, leaves the
sender's own counter unchanged, and sets the denormalized preview (truncated
to 200 characters), timestamp and last-sender to the new message. -/
theorem send_message_spec (s : ChatStore) (conversation_id sender_id : Nat)
    (conv : ConversationRow) (data : MessageCreate) (now : Nat)
    (hfind : get_conversation_by_id s conversation_id sender_id = some conv)
    (hne : conv.user1_id ≠ conv.user2_id) :
    (send_message s conversation_id sender_id data now).1.messages
      = s.messages ++ [(send_message s conversation_id sender_id data now).2] ∧
    (send_message s conversation_id sender_id data now).2.sender_id = sender_id ∧
    (send_message s conversation_id sender_id data now).2.conversation_id
      = conversation_id ∧
    (send_message s conversation_id sender_id data now).2.created_at = now ∧
    (get_conversation_by_id (send_message s conversation_id sender_id data now).1
        conversation_id sender_id).map
        (fun c => (c.get_unread_count (conv.get_other_user_id sender_id),
                   c.get_unread_count sender_id,
                   c.last_message_text, c.last_message_at, c.last_sender_id))
      = some (conv.get_unread_count (conv.get_other_user_id sender_id) + 1,
              conv.get_unread_count sender_id,
              some ((previewSource data.content).take 200), some now, some sender_id) := by
  have hfind' := hfind
  unfold get_conversation_by_id at hfind'
  have hp := List.find?_some hfind'
  simp only [Bool.and_eq_true, Bool.or_eq_true, beq_iff_eq] at hp
  obtain ⟨hid, hpart⟩ := hp
  refine ⟨rfl, rfl, rfl, rfl, ?_⟩
  simp only [send_message, hfind]
  unfold get_conversation_by_id
  dsimp only
  rw [find?_map_eq _ _ _ (fun c => by by_cases hc : (c.id == conversation_id) = true <;>
    simp [hc])]
  rw [hfind']
  simp only [Option.map_some', Option.some.injEq]
  rcases hpart with h1 | h2
  · have h2ne : conv.user2_id ≠ sender_id := fun h => hne (h1.trans h.symm)
    simp [ConversationRow.get_unread_count, ConversationRow.get_other_user_id,
      hid, h1, h2ne, Ne.symm h2ne]
  · have h1ne : conv.user1_id ≠ sender_id := fun h => hne (h.trans h2.symm)
    simp [ConversationRow.get_unread_count, ConversationRow.get_other_user_id,
      hid, h2, h1ne, Ne.symm h1ne]

/-- Witness for C1: user 1 sends "hi" in the two-user fixture conversation;
user 2's counter becomes 1, user 1's stays 0, and the preview fields carry the
message. -/
theorem send_message_spec_witness :
    (send_message storeFixture 1 1 { content := some "hi" } 5).1.messages
      = storeFixture.messages
        ++ [(send_message storeFixture 1 1 { content := some "hi" } 5).2] ∧
    (get_conversation_by_id (send_message storeFixture 1 1 { content := some "hi" } 5).1
        1 1).map
        (fun c => (c.get_unread_count (convFixture.get_other_user_id 1),
                   c.get_unread_count 1,
                   c.last_message_text, c.last_message_at, c.last_sender_id))
      = some (convFixture.get_unread_count (convFixture.get_other_user_id 1) + 1,
              convFixture.get_unread_count 1,
              some ((previewSource (some "hi")).take 200), some 5, some 1) :=
  ⟨(send_message_spec storeFixture 1 1 convFixture { content := some "hi" } 5
      (by decide) (by decide)).1,
   (send_message_spec storeFixture 1 1 convFixture { content := some "hi" } 5
      (by decide) (by decide)).2.2.2.2⟩

/-! ## Claim C5 -/

/-- Claim C5: when the reader is a participant (the reader-scoped lookup finds
the conversation), after `mark_as_read` the reader's unread counter for the
conversation is zero while the other participant's counter is unchanged, and,
message by message, every previously unread message of the conversation not
sent by the reader now carries the read flag and the read timestamp, while
messages sent by the reader and messages of other conversations are
untouched. -/
theorem mark_as_read_spec (s : ChatStore) (conversation_id reader : Nat)
    (conv : ConversationRow) (now : Nat)
    (hfind : get_conversation_by_id s conversation_id reader = some conv)
    (hne : conv.user1_id ≠ conv.user2_id) :
    (get_conversation_by_id (mark_as_read s conversation_id reader now)
        conversation_id reader).map
        (fun c => (c.get_unread_count reader,
                   c.get_unread_count (conv.get_other_user_id reader)))
      = some (0, conv.get_unread_count (conv.get_other_user_id reader)) ∧
    List.Forall₂ (fun m m' : MessageRow =>
        m'.id = m.id ∧ m'.sender_id = m.sender_id ∧ m'.content = m.content ∧
        m'.created_at = m.created_at ∧
        (m.conversation_id = conversation_id → m.sender_id ≠ reader →
          m.is_read = false → m'.is_read = true ∧ m'.read_at = some now) ∧
        (m.sender_id = reader → m' = m) ∧
        (m.conversation_id ≠ conversation_id → m' = m))
      s.messages (mark_as_read s conversation_id reader now).messages := by
  have hfind' := hfind
  unfold get_conversation_by_id at hfind'
  have hp := List.find?_some hfind'
  simp only [Bool.and_eq_true, Bool.or_eq_true, beq_iff_eq] at hp
  obtain ⟨hid, hpart⟩ := hp
  constructor
  · simp only [mark_as_read, hfind]
    unfold get_conversation_by_id
    dsimp only
    rw [find?_map_eq _ _ _ (fun c => by
      by_cases hc : (c.id == conversation_id) = true
      · by_cases hu : (c.user1_id == reader) = true <;> simp [hc, hu]
      · simp [hc])]
    rw [hfind']
    simp only [Option.map_some', Option.some.injEq]
    rcases hpart with h1 | h2
    · have h2ne : conv.user2_id ≠ reader := fun h => hne (h1.trans h.symm)
      simp [ConversationRow.get_unread_count, ConversationRow.get_other_user_id,
        hid, h1, h2ne, Ne.symm h2ne]
    · have h1ne : conv.user1_id ≠ reader := fun h => hne (h.trans h2.symm)
      simp [ConversationRow.get_unread_count, ConversationRow.get_other_user_id,
        hid, h2, h1ne, Ne.symm h1ne]
  · simp only [mark_as_read, hfind]
    rw [List.forall₂_map_right_iff, List.forall₂_same]
    intro m hm
    by_cases hcond :
        (m.conversation_id == conversation_id && m.sender_id != reader && !m.is_read) = true
    · rw [if_pos hcond]
      simp only [Bool.and_eq_true, bne_iff_ne, Bool.not_eq_true', beq_iff_eq] at hcond
      obtain ⟨⟨hc1, hc2⟩, hc3⟩ := hcond
      exact ⟨rfl, rfl, rfl, rfl, fun _ _ _ => ⟨rfl, rfl⟩,
        fun hsend => absurd hsend hc2, fun hnc => absurd hc1 hnc⟩
    · rw [if_neg hcond]
      refine ⟨rfl, rfl, rfl, rfl, ?_, fun _ => rfl, fun _ => rfl⟩
      intro h1 h2 h3
      exact absurd (by simp [h1, h2, h3]) hcond

/-- Witness for C5: user 1 marks the fixture conversation read; their counter
drops from 1 to 0 and user 2's counter stays 0. -/
theorem mark_as_read_spec_witness :
    (get_conversation_by_id (mark_as_read storeWithMessages 1 1 9) 1 1).map
        (fun c => (c.get_unread_count 1, c.get_unread_count 2)) = some (0, 0) :=
  (mark_as_read_spec storeWithMessages 1 1
    { convFixture with unread_count_user1 := 1 } 9 (by decide) (by decide)).1

/-! ## Claim C7 -/

theorem lookup_after_send_message (s : ChatStore) (conversation_id user_id : Nat)
    (data : MessageCreate) (now : Nat) :
    (get_conversation_by_id (send_message s conversation_id user_id data now).1
        conversation_id user_id).isSome
      = (get_conversation_by_id s conversation_id user_id).isSome := by
  unfold send_message
  cases hf : get_conversation_by_id s conversation_id user_id with
  | none =>
      unfold get_conversation_by_id at hf ⊢
      dsimp only
      rw [hf]
  | some conv =>
      dsimp only
      conv_lhs => unfold get_conversation_by_id
      dsimp only
      rw [find?_map_eq _ _ _ (fun c => by
        by_cases hc : (c.id == conversation_id) = true <;> simp [hc])]
      unfold get_conversation_by_id at hf
      rw [hf]
      rfl

/-- Claim C7 counterexample: the recipient, user 2, is online with a live
connection, yet the successful send request leaves the connection registry
untouched and delivers no event to anyone — the handler neither fans out to
the recipient's connections nor hands anything to an offline relay. -/
theorem api_send_message_no_delivery_cex :
    isOnline c7Registry 2 = true ∧
    (api_send_message_full storeFixture c7Registry 1 1 { content := some "hello" } 3).map
      (fun out => (out.2.1, out.2.2.1)) = .ok (c7Registry, ([] : List (Nat × Nat))) := by
  decide

/-- Claim C7 (amended): the send endpoint persists the message and returns
success without any delivery attempt: the registry is unchanged and the
delivery trace is empty whether or not the recipient is online, so no delivery
or relay failure can fail the call, and the persisted message is returned by
`get_messages` on the resulting store (for a page limit that covers the
conversation). -/
theorem api_send_message_full_spec (s : ChatStore) (r : Registry)
    (conversation_id user_id limit : Nat) (conv : ConversationRow)
    (data : MessageCreate) (now : Nat)
    (hfind : get_conversation_by_id s conversation_id user_id = some conv)
    (hnb : conv.is_blocked = false)
    (hl : (s.messages.filter fun m =>
        m.conversation_id == conversation_id && !m.is_deleted).length + 1 ≤ limit) :
    api_send_message_full s r conversation_id user_id data now
      = .ok ((send_message s conversation_id user_id data now).1, r, [],
             (send_message s conversation_id user_id data now).2) ∧
    (send_message s conversation_id user_id data now).2
      ∈ get_messages (send_message s conversation_id user_id data now).1
          conversation_id user_id limit none := by
  constructor
  · simp [api_send_message_full, api_send_message, hfind, hnb]
  · have hsome : (get_conversation_by_id (send_message s conversation_id user_id data now).1
        conversation_id user_id).isSome = true := by
      rw [lookup_after_send_message, hfind]
      rfl
    unfold get_messages
    cases hg : get_conversation_by_id (send_message s conversation_id user_id data now).1
        conversation_id user_id with
    | none => rw [hg] at hsome; simp at hsome
    | some c2 =>
        dsimp only
        have hmsgs : (send_message s conversation_id user_id data now).1.messages
            = s.messages ++ [(send_message s conversation_id user_id data now).2] := rfl
        rw [hmsgs]
        have hfiltermsg :
            List.filter (fun m => m.conversation_id == conversation_id && !m.is_deleted)
              [(send_message s conversation_id user_id data now).2]
            = [(send_message s conversation_id user_id data now).2] := by
          simp [send_message]
        have hlen : (sortDesc ((s.messages
            ++ [(send_message s conversation_id user_id data now).2]).filter
            fun m => m.conversation_id == conversation_id && !m.is_deleted)).length
            ≤ limit := by
          rw [length_sortDesc, List.filter_append, hfiltermsg, List.length_append]
          simpa using hl
        rw [List.mem_reverse, List.take_of_length_le hlen, mem_sortDesc,
          List.filter_append, hfiltermsg]
        exact List.mem_append_right _ (List.mem_singleton.mpr rfl)

/-- Witness for the amended C7: user 1 sends "hello"; the endpoint returns the
persisted state with untouched registry and empty delivery trace, and the
message is retrievable. -/
theorem api_send_message_full_spec_witness :
    api_send_message_full storeFixture c7Registry 1 1 { content := some "hello" } 3
      = .ok ((send_message storeFixture 1 1 { content := some "hello" } 3).1, c7Registry, [],
             (send_message storeFixture 1 1 { content := some "hello" } 3).2) ∧
    (send_message storeFixture 1 1 { content := some "hello" } 3).2
      ∈ get_messages (send_message storeFixture 1 1 { content := some "hello" } 3).1
          1 1 50 none :=
  ⟨(api_send_message_full_spec storeFixture c7Registry 1 1 50 convFixture
      { content := some "hello" } 3 (by decide) (by decide) (by decide)).1,
   (api_send_message_full_spec storeFixture c7Registry 1 1 50 convFixture
      { content := some "hello" } 3 (by decide) (by decide) (by decide)).2⟩

end Obmen
